import Mathlib

/-!
Verification development for the tengen speech SDK go client.

The development is a shallow embedding of the client code: the JSON wire
codec (package transport / package protocol), the connection retry logic
(transport.Conn.ConnectWithRetry), the recognition session state machine
(package stt), the synthesis session state machine and its audio stream
(package tts), and the idle-completion event loop of the simplified
recognize operations (stt.Client.RecognizeFile / RecognizeBytes).

Wire bytes are modelled at the JSON abstract-syntax level: a received
frame is either well-formed JSON or malformed, and the semantics of
encoding/json marshalling and unmarshalling on the concrete protocol
structs (including omitempty tags, missing fields, null values and
type-mismatch errors) is spelled out field by field. Machine floats in
the protocol structs (speed, pitch, volume) are modelled as rationals,
which is exact for the JSON decimal values the codec exchanges. Time
stamps are modelled as abstract instants (natural numbers) and the
goroutine select loops as functions over lists of loop inputs, one input
per select firing, in arrival order.
-/

/-- JSON value: the abstract syntax a well-formed frame parses into. -/
inductive Json where
  | null
  | bool (b : Bool)
  | num (q : Rat)
  | str (s : String)
  | arr (elems : List Json)
  | obj (fields : List (String × Json))

/-- Raw bytes received on the socket: either well-formed JSON or not. -/
inductive WireData where
  | malformed
  | json (j : Json)

/-- Field lookup in a JSON object, with the encoding/json rule that for
duplicate keys the later value wins. -/
def lookupField (fields : List (String × Json)) (name : String) : Option Json :=
  fields.foldl (fun acc kv => if kv.fst = name then some kv.snd else acc) none

/-- Unmarshal a JSON object field into a go string field: a missing field or a
null value leaves the zero value, a string is taken verbatim, any other value
is an unmarshal type error. -/
def decodeStringField (fields : List (String × Json)) (name : String) :
    Except Unit String :=
  match lookupField fields name with
  | none => .ok ""
  | some .null => .ok ""
  | some (.str s) => .ok s
  | some _ => .error ()

/-- Unmarshal a JSON object field into a go int field: missing or null gives
zero, an integral number is taken, a fractional number or any other value is
an unmarshal error. -/
def decodeIntField (fields : List (String × Json)) (name : String) :
    Except Unit Int :=
  match lookupField fields name with
  | none => .ok 0
  | some .null => .ok 0
  | some (.num q) => if q.den = 1 then .ok q.num else .error ()
  | some _ => .error ()

/-- Unmarshal a JSON object field into a go float64 field, modelled as a
rational: missing or null gives zero, a number is taken, anything else is an
unmarshal error. -/
def decodeFloatField (fields : List (String × Json)) (name : String) :
    Except Unit Rat :=
  match lookupField fields name with
  | none => .ok 0
  | some .null => .ok 0
  | some (.num q) => .ok q
  | some _ => .error ()

/-- Marshal a string field carrying the omitempty tag: the zero value is
dropped from the object. -/
def omitStr (name : String) (s : String) : List (String × Json) :=
  if s = "" then [] else [(name, .str s)]

/-- Marshal a numeric field carrying the omitempty tag: the zero value is
dropped from the object. -/
def omitNum (name : String) (q : Rat) : List (String × Json) :=
  if q = 0 then [] else [(name, .num q)]

/-- MessageType from package protocol: the string discriminant of a frame. -/
abbrev MessageType := String

def MessageTypeSessionConfig : MessageType := "session.config"

def MessageTypeAudioAppend : MessageType := "audio.append"

def MessageTypeTextAppend : MessageType := "text.append"

def MessageTypeInputCommit : MessageType := "input.commit"

def MessageTypeSessionEnd : MessageType := "session.end"

def MessageTypeSessionReady : MessageType := "session.ready"

def MessageTypeSessionConfigDone : MessageType := "session.config_done"

def MessageTypeTranscriptPartialMsg : MessageType := "transcript.partial"

def MessageTypeTranscriptFinal : MessageType := "transcript.final"

def MessageTypeAudioDelta : MessageType := "audio.delta"

def MessageTypeAudioDone : MessageType := "audio.done"

def MessageTypeInputDone : MessageType := "input.done"

def MessageTypeProcessing : MessageType := "processing"

def MessageTypeError : MessageType := "error"

/-- SessionParams from package protocol; every field carries omitempty. -/
structure SessionParams where
  provider : String
  language : String
  sampleRate : Int
  audioFormat : String
  voiceID : String
  speed : Rat
  pitch : Rat
  volume : Rat
deriving DecidableEq, Repr

/-- The zero value of SessionParams. -/
def zeroSessionParams : SessionParams :=
  { provider := "", language := "", sampleRate := 0, audioFormat := "",
    voiceID := "", speed := 0, pitch := 0, volume := 0 }

/-- SessionConfig message. -/
structure SessionConfig where
  type : MessageType
  session : SessionParams
deriving DecidableEq, Repr

/-- AudioAppend message. -/
structure AudioAppend where
  type : MessageType
  audio : String
deriving DecidableEq, Repr

/-- TextAppend message. -/
structure TextAppend where
  type : MessageType
  text : String
deriving DecidableEq, Repr

/-- InputCommit message. -/
structure InputCommit where
  type : MessageType
deriving DecidableEq, Repr

/-- SessionEnd message. -/
structure SessionEnd where
  type : MessageType
deriving DecidableEq, Repr

/-- SessionReady message. -/
structure SessionReady where
  type : MessageType
  sessionID : String
deriving DecidableEq, Repr

/-- SessionConfigDone message. -/
structure SessionConfigDone where
  type : MessageType
deriving DecidableEq, Repr

/-- TranscriptPartialMsg: the transcript.partial message (named with a Msg
suffix in this development). -/
structure TranscriptPartialMsg where
  type : MessageType
  text : String
deriving DecidableEq, Repr

/-- TranscriptFinal message; start and end times are int64 milliseconds with
omitempty. -/
structure TranscriptFinal where
  type : MessageType
  text : String
  startTime : Int
  endTime : Int
deriving DecidableEq, Repr

/-- AudioDelta message; audio is a base64 payload. -/
structure AudioDelta where
  type : MessageType
  audio : String
deriving DecidableEq, Repr

/-- AudioDone message. -/
structure AudioDone where
  type : MessageType
deriving DecidableEq, Repr

/-- InputDone message. -/
structure InputDone where
  type : MessageType
deriving DecidableEq, Repr

/-- Processing keep-alive message. -/
structure Processing where
  type : MessageType
deriving DecidableEq, Repr

/-- ErrorMessage carrying a code and a human message. -/
structure ErrorMessage where
  type : MessageType
  code : String
  message : String
deriving DecidableEq, Repr

/-- The closed union of the fourteen wire message variants. -/
inductive ParsedMessage where
  | sessionReady (m : SessionReady)
  | sessionConfigDone (m : SessionConfigDone)
  | transcriptPartialMsg (m : TranscriptPartialMsg)
  | transcriptFinal (m : TranscriptFinal)
  | audioDelta (m : AudioDelta)
  | audioDone (m : AudioDone)
  | inputDone (m : InputDone)
  | processing (m : Processing)
  | errorMessage (m : ErrorMessage)
  | sessionConfig (m : SessionConfig)
  | audioAppend (m : AudioAppend)
  | textAppend (m : TextAppend)
  | inputCommit (m : InputCommit)
  | sessionEnd (m : SessionEnd)
deriving DecidableEq, Repr

/-- Errors of the transport codec. -/
inductive ParseErr where
  | typeParse
  | unknownType (t : String)
  | bodyParse
deriving DecidableEq, Repr

/-- Model of json.Unmarshal into the transport.RawMessage struct, which has
the single field Type tagged "type": a null document or a missing field
leaves the zero value (the empty tag) without error; a non-object document or
a non-string type field is an unmarshal error. -/
def unmarshalRawMessage (j : Json) : Except Unit MessageType :=
  match j with
  | .null => .ok ""
  | .obj fields => decodeStringField fields "type"
  | _ => .error ()

/-- transport.ParseMessageType: unmarshals only the discriminant field and
wraps an unmarshal failure in a parse error. -/
def ParseMessageType (data : WireData) : Except ParseErr MessageType :=
  match data with
  | .malformed => .error .typeParse
  | .json j =>
    match unmarshalRawMessage j with
    | .ok t => .ok t
    | .error _ => .error .typeParse

/-- json.Unmarshal into protocol.SessionReady. -/
def unmarshalSessionReady (j : Json) : Except Unit SessionReady :=
  match j with
  | .null => .ok { type := "", sessionID := "" }
  | .obj fs => do
      let t ← decodeStringField fs "type"
      let sid ← decodeStringField fs "session_id"
      .ok { type := t, sessionID := sid }
  | _ => .error ()

/-- json.Unmarshal into protocol.TranscriptPartial. -/
def unmarshalTranscriptPartialMsg (j : Json) : Except Unit TranscriptPartialMsg :=
  match j with
  | .null => .ok { type := "", text := "" }
  | .obj fs => do
      let t ← decodeStringField fs "type"
      let tx ← decodeStringField fs "text"
      .ok { type := t, text := tx }
  | _ => .error ()

/-- json.Unmarshal into protocol.TranscriptFinal. -/
def unmarshalTranscriptFinal (j : Json) : Except Unit TranscriptFinal :=
  match j with
  | .null => .ok { type := "", text := "", startTime := 0, endTime := 0 }
  | .obj fs => do
      let t ← decodeStringField fs "type"
      let tx ← decodeStringField fs "text"
      let st ← decodeIntField fs "start_time"
      let en ← decodeIntField fs "end_time"
      .ok { type := t, text := tx, startTime := st, endTime := en }
  | _ => .error ()

/-- json.Unmarshal into protocol.AudioDelta. -/
def unmarshalAudioDelta (j : Json) : Except Unit AudioDelta :=
  match j with
  | .null => .ok { type := "", audio := "" }
  | .obj fs => do
      let t ← decodeStringField fs "type"
      let a ← decodeStringField fs "audio"
      .ok { type := t, audio := a }
  | _ => .error ()

/-- json.Unmarshal into protocol.AudioDone. -/
def unmarshalAudioDone (j : Json) : Except Unit AudioDone :=
  match j with
  | .null => .ok { type := "" }
  | .obj fs => do
      let t ← decodeStringField fs "type"
      .ok { type := t }
  | _ => .error ()

/-- json.Unmarshal into protocol.InputDone. -/
def unmarshalInputDone (j : Json) : Except Unit InputDone :=
  match j with
  | .null => .ok { type := "" }
  | .obj fs => do
      let t ← decodeStringField fs "type"
      .ok { type := t }
  | _ => .error ()

/-- json.Unmarshal into protocol.Processing. -/
def unmarshalProcessing (j : Json) : Except Unit Processing :=
  match j with
  | .null => .ok { type := "" }
  | .obj fs => do
      let t ← decodeStringField fs "type"
      .ok { type := t }
  | _ => .error ()

/-- json.Unmarshal into protocol.ErrorMessage. -/
def unmarshalErrorMessage (j : Json) : Except Unit ErrorMessage :=
  match j with
  | .null => .ok { type := "", code := "", message := "" }
  | .obj fs => do
      let t ← decodeStringField fs "type"
      let c ← decodeStringField fs "code"
      let m ← decodeStringField fs "message"
      .ok { type := t, code := c, message := m }
  | _ => .error ()

/-- json.Unmarshal into protocol.SessionParams. -/
def unmarshalSessionParams (j : Json) : Except Unit SessionParams :=
  match j with
  | .null => .ok zeroSessionParams
  | .obj fs => do
      let pr ← decodeStringField fs "provider"
      let la ← decodeStringField fs "language"
      let sr ← decodeIntField fs "sample_rate"
      let af ← decodeStringField fs "audio_format"
      let vo ← decodeStringField fs "voice_id"
      let sp ← decodeFloatField fs "speed"
      let pi ← decodeFloatField fs "pitch"
      let vl ← decodeFloatField fs "volume"
      .ok { provider := pr, language := la, sampleRate := sr, audioFormat := af,
            voiceID := vo, speed := sp, pitch := pi, volume := vl }
  | _ => .error ()

/-- json.Unmarshal into protocol.SessionConfig (nested session object). -/
def unmarshalSessionConfig (j : Json) : Except Unit SessionConfig :=
  match j with
  | .null => .ok { type := "", session := zeroSessionParams }
  | .obj fs => do
      let t ← decodeStringField fs "type"
      let se ← (match lookupField fs "session" with
                | none => Except.ok zeroSessionParams
                | some sj => unmarshalSessionParams sj)
      .ok { type := t, session := se }
  | _ => .error ()

/-- json.Unmarshal into protocol.AudioAppend. -/
def unmarshalAudioAppend (j : Json) : Except Unit AudioAppend :=
  match j with
  | .null => .ok { type := "", audio := "" }
  | .obj fs => do
      let t ← decodeStringField fs "type"
      let a ← decodeStringField fs "audio"
      .ok { type := t, audio := a }
  | _ => .error ()

/-- json.Unmarshal into protocol.TextAppend. -/
def unmarshalTextAppend (j : Json) : Except Unit TextAppend :=
  match j with
  | .null => .ok { type := "", text := "" }
  | .obj fs => do
      let t ← decodeStringField fs "type"
      let tx ← decodeStringField fs "text"
      .ok { type := t, text := tx }
  | _ => .error ()

/-- json.Unmarshal into protocol.InputCommit. -/
def unmarshalInputCommit (j : Json) : Except Unit InputCommit :=
  match j with
  | .null => .ok { type := "" }
  | .obj fs => do
      let t ← decodeStringField fs "type"
      .ok { type := t }
  | _ => .error ()

/-- json.Unmarshal into protocol.SessionEnd. -/
def unmarshalSessionEnd (j : Json) : Except Unit SessionEnd :=
  match j with
  | .null => .ok { type := "" }
  | .obj fs => do
      let t ← decodeStringField fs "type"
      .ok { type := t }
  | _ => .error ()

/-- transport.ParseMessage: reads the tag and dispatches on it to unmarshal
the matching variant, exactly over the thirteen cases of the source switch
(eight server cases and five client cases, in source order); any other tag,
including session.config_done, falls to the unknown-message-type error. -/
def ParseMessage (data : WireData) : Except ParseErr ParsedMessage :=
  match ParseMessageType data with
  | .error e => .error e
  | .ok msgType =>
    match data with
    | .malformed => .error .typeParse
    | .json j =>
      if msgType = MessageTypeSessionReady then
        match unmarshalSessionReady j with
        | .ok m => .ok (.sessionReady m)
        | .error _ => .error .bodyParse
      else if msgType = MessageTypeTranscriptPartialMsg then
        match unmarshalTranscriptPartialMsg j with
        | .ok m => .ok (.transcriptPartialMsg m)
        | .error _ => .error .bodyParse
      else if msgType = MessageTypeTranscriptFinal then
        match unmarshalTranscriptFinal j with
        | .ok m => .ok (.transcriptFinal m)
        | .error _ => .error .bodyParse
      else if msgType = MessageTypeAudioDelta then
        match unmarshalAudioDelta j with
        | .ok m => .ok (.audioDelta m)
        | .error _ => .error .bodyParse
      else if msgType = MessageTypeAudioDone then
        match unmarshalAudioDone j with
        | .ok m => .ok (.audioDone m)
        | .error _ => .error .bodyParse
      else if msgType = MessageTypeInputDone then
        match unmarshalInputDone j with
        | .ok m => .ok (.inputDone m)
        | .error _ => .error .bodyParse
      else if msgType = MessageTypeProcessing then
        match unmarshalProcessing j with
        | .ok m => .ok (.processing m)
        | .error _ => .error .bodyParse
      else if msgType = MessageTypeError then
        match unmarshalErrorMessage j with
        | .ok m => .ok (.errorMessage m)
        | .error _ => .error .bodyParse
      else if msgType = MessageTypeSessionConfig then
        match unmarshalSessionConfig j with
        | .ok m => .ok (.sessionConfig m)
        | .error _ => .error .bodyParse
      else if msgType = MessageTypeAudioAppend then
        match unmarshalAudioAppend j with
        | .ok m => .ok (.audioAppend m)
        | .error _ => .error .bodyParse
      else if msgType = MessageTypeTextAppend then
        match unmarshalTextAppend j with
        | .ok m => .ok (.textAppend m)
        | .error _ => .error .bodyParse
      else if msgType = MessageTypeInputCommit then
        match unmarshalInputCommit j with
        | .ok m => .ok (.inputCommit m)
        | .error _ => .error .bodyParse
      else if msgType = MessageTypeSessionEnd then
        match unmarshalSessionEnd j with
        | .ok m => .ok (.sessionEnd m)
        | .error _ => .error .bodyParse
      else .error (.unknownType msgType)

/-- Marshal protocol.SessionParams: every field carries omitempty, in struct
field order. -/
def marshalSessionParams (p : SessionParams) : Json :=
  .obj (omitStr "provider" p.provider ++ omitStr "language" p.language ++
        omitNum "sample_rate" (p.sampleRate : Rat) ++
        omitStr "audio_format" p.audioFormat ++ omitStr "voice_id" p.voiceID ++
        omitNum "speed" p.speed ++ omitNum "pitch" p.pitch ++
        omitNum "volume" p.volume)

/-- transport.EncodeMessage: json.Marshal of each struct, emitting fields in
struct order and honouring the omitempty tags. Marshalling never fails for
these structs, so the result is the JSON document itself. -/
def EncodeMessage (m : ParsedMessage) : Json :=
  match m with
  | .sessionReady r => .obj [("type", .str r.type), ("session_id", .str r.sessionID)]
  | .sessionConfigDone r => .obj [("type", .str r.type)]
  | .transcriptPartialMsg r => .obj [("type", .str r.type), ("text", .str r.text)]
  | .transcriptFinal r =>
      .obj ([("type", .str r.type), ("text", .str r.text)] ++
            omitNum "start_time" (r.startTime : Rat) ++
            omitNum "end_time" (r.endTime : Rat))
  | .audioDelta r => .obj [("type", .str r.type), ("audio", .str r.audio)]
  | .audioDone r => .obj [("type", .str r.type)]
  | .inputDone r => .obj [("type", .str r.type)]
  | .processing r => .obj [("type", .str r.type)]
  | .errorMessage r =>
      .obj [("type", .str r.type), ("code", .str r.code), ("message", .str r.message)]
  | .sessionConfig r => .obj [("type", .str r.type), ("session", marshalSessionParams r.session)]
  | .audioAppend r => .obj [("type", .str r.type), ("audio", .str r.audio)]
  | .textAppend r => .obj [("type", .str r.type), ("text", .str r.text)]
  | .inputCommit r => .obj [("type", .str r.type)]
  | .sessionEnd r => .obj [("type", .str r.type)]

/-- The canonical wire tag of each variant. -/
def messageTag (m : ParsedMessage) : MessageType :=
  match m with
  | .sessionReady _ => MessageTypeSessionReady
  | .sessionConfigDone _ => MessageTypeSessionConfigDone
  | .transcriptPartialMsg _ => MessageTypeTranscriptPartialMsg
  | .transcriptFinal _ => MessageTypeTranscriptFinal
  | .audioDelta _ => MessageTypeAudioDelta
  | .audioDone _ => MessageTypeAudioDone
  | .inputDone _ => MessageTypeInputDone
  | .processing _ => MessageTypeProcessing
  | .errorMessage _ => MessageTypeError
  | .sessionConfig _ => MessageTypeSessionConfig
  | .audioAppend _ => MessageTypeAudioAppend
  | .textAppend _ => MessageTypeTextAppend
  | .inputCommit _ => MessageTypeInputCommit
  | .sessionEnd _ => MessageTypeSessionEnd

/-- The Type field stored in the payload struct of a variant. -/
def typeField (m : ParsedMessage) : MessageType :=
  match m with
  | .sessionReady r => r.type
  | .sessionConfigDone r => r.type
  | .transcriptPartialMsg r => r.type
  | .transcriptFinal r => r.type
  | .audioDelta r => r.type
  | .audioDone r => r.type
  | .inputDone r => r.type
  | .processing r => r.type
  | .errorMessage r => r.type
  | .sessionConfig r => r.type
  | .audioAppend r => r.type
  | .textAppend r => r.type
  | .inputCommit r => r.type
  | .sessionEnd r => r.type

/-- A message whose stored Type field is its canonical tag, as every value
built by the protocol and transport constructors is. -/
def wellTagged (m : ParsedMessage) : Prop := typeField m = messageTag m

instance (m : ParsedMessage) : Decidable (wellTagged m) := by
  unfold wellTagged
  infer_instance

/-- Whether a message is the session.config_done variant. -/
def isSessionConfigDone (m : ParsedMessage) : Bool :=
  match m with
  | .sessionConfigDone _ => true
  | _ => false

/-- transport.NewSessionConfig. -/
def NewSessionConfig (params : SessionParams) : SessionConfig :=
  { type := MessageTypeSessionConfig, session := params }

/-- transport.NewAudioAppend. -/
def NewAudioAppend (audioBase64 : String) : AudioAppend :=
  { type := MessageTypeAudioAppend, audio := audioBase64 }

/-- transport.NewTextAppend. -/
def NewTextAppend (text : String) : TextAppend :=
  { type := MessageTypeTextAppend, text := text }

/-- transport.NewInputCommit. -/
def NewInputCommit : InputCommit := { type := MessageTypeInputCommit }

/-- transport.NewSessionEnd. -/
def NewSessionEnd : SessionEnd := { type := MessageTypeSessionEnd }

/-- protocol.NewSessionConfigDone. -/
def NewSessionConfigDone : SessionConfigDone :=
  { type := MessageTypeSessionConfigDone }

/-- Index of a character in the standard base64 alphabet (A-Z a-z 0-9 + /). -/
def base64Index (c : Char) : Option Nat :=
  let n := c.toNat
  if 65 ≤ n ∧ n ≤ 90 then some (n - 65)
  else if 97 ≤ n ∧ n ≤ 122 then some (n - 97 + 26)
  else if 48 ≤ n ∧ n ≤ 57 then some (n - 48 + 52)
  else if n = 43 then some 62
  else if n = 47 then some 63
  else none

/-- Decode base64 text four characters at a time, as base64.StdEncoding does:
the input length must be a multiple of four, padding may only occur in the
final group, and any character outside the alphabet is an error. Character
code 61 is the padding sign. -/
def base64DecodeGroups : List Char → Option (List Nat)
  | [] => some []
  | c1 :: c2 :: c3 :: c4 :: rest =>
    match base64Index c1, base64Index c2 with
    | some a, some b =>
      if c3.toNat = 61 then
        if c4.toNat = 61 ∧ rest = [] then some [a * 4 + b / 16]
        else none
      else
        match base64Index c3 with
        | some c =>
          if c4.toNat = 61 then
            if rest = [] then some [a * 4 + b / 16, b % 16 * 16 + c / 4]
            else none
          else
            match base64Index c4 with
            | some d =>
              match base64DecodeGroups rest with
              | some bs => some ([a * 4 + b / 16, b % 16 * 16 + c / 4, c % 4 * 64 + d] ++ bs)
              | none => none
            | none => none
        | none => none
    | _, _ => none
  | _ => none

/-- base64.StdEncoding.DecodeString: newline characters are skipped, then the
text is decoded in groups of four. -/
def base64Decode (s : String) : Option (List Nat) :=
  base64DecodeGroups (s.data.filter (fun c => c.toNat ≠ 10 ∧ c.toNat ≠ 13))

/-- Errors of transport.Conn.ConnectWithRetry: the caller context was
cancelled during a backoff wait, or the retry budget was exhausted; the
exhausted error carries the configured retry count and the last underlying
Connect error, as in the source format string. -/
inductive RetryErr where
  | ctxCancelled
  | exhausted (retries : Nat) (lastErr : String)
deriving DecidableEq, Repr

/-- One step of the ConnectWithRetry loop. The arguments mirror the source:
attempts gives the outcome of the i-th Connect call (none is success),
cancelled says whether the caller context is done when the wait before
attempt i starts, remaining counts the loop iterations left
(maxReconnects + 1 - i), backoff is the current backoff value, and lastErr
the last Connect error seen. The returned list is the sequence of backoff
delays actually slept, in order. -/
def connectWithRetryGo (attempts : Nat → Option String) (cancelled : Nat → Bool)
    (maxReconnects : Nat) :
    Nat → Nat → Nat → String → Except RetryErr Unit × List Nat
  | 0, _, _, lastErr => (.error (.exhausted maxReconnects lastErr), [])
  | remaining + 1, i, backoff, _lastErr =>
    if i > 0 then
      if cancelled i then (.error .ctxCancelled, [])
      else
        let r :=
          match attempts i with
          | none => (Except.ok (), ([] : List Nat))
          | some e =>
              connectWithRetryGo attempts cancelled maxReconnects remaining
                (i + 1) (backoff * 2) e
        (r.1, backoff :: r.2)
    else
      match attempts i with
      | none => (.ok (), [])
      | some e =>
          connectWithRetryGo attempts cancelled maxReconnects remaining
            (i + 1) backoff e

/-- transport.Conn.ConnectWithRetry: runs Connect for i = 0 .. maxReconnects,
sleeping the exponentially doubled backoff before every attempt after the
first and aborting the wait on context cancellation. -/
def ConnectWithRetry (attempts : Nat → Option String) (cancelled : Nat → Bool)
    (maxReconnects : Nat) (backoffBase : Nat) : Except RetryErr Unit × List Nat :=
  connectWithRetryGo attempts cancelled maxReconnects (maxReconnects + 1) 0
    backoffBase ""

/-- EventType from package stt. -/
abbrev EventType := String

def EventReady : EventType := "ready"

/-- Source constant EventPartial (named with a Result suffix here). -/
def EventPartialResult : EventType := "partial"

def EventFinal : EventType := "final"

def EventError : EventType := "error"

def EventInputDone : EventType := "input_done"

def EventProcessing : EventType := "processing"

def EventClosed : EventType := "closed"

/-- Conversion factor of the source (time.Duration(ms) * time.Millisecond):
durations are nanosecond counts. -/
def millisecondNs : Int := 1000000

/-- stt.RecognitionEvent; the error cause is the formatted message of the
wrapped go error. -/
structure RecognitionEvent where
  type : EventType
  sessionID : String
  text : String
  isFinal : Bool
  startTime : Int
  endTime : Int
  error : Option String
deriving DecidableEq, Repr

/-- The zero RecognitionEvent, from which the constructors set their fields. -/
def zeroEvent : RecognitionEvent :=
  { type := "", sessionID := "", text := "", isFinal := false,
    startTime := 0, endTime := 0, error := none }

/-- stt.NewReadyEvent. -/
def NewReadyEvent (sessionID : String) : RecognitionEvent :=
  { zeroEvent with type := EventReady, sessionID := sessionID }

/-- stt.NewPartialEvent. -/
def NewPartialEvent (text : String) : RecognitionEvent :=
  { zeroEvent with type := EventPartialResult, text := text, isFinal := false }

/-- stt.NewFinalEvent. -/
def NewFinalEvent (text : String) (startTime endTime : Int) : RecognitionEvent :=
  { zeroEvent with type := EventFinal, text := text, isFinal := true,
                   startTime := startTime, endTime := endTime }

/-- stt.NewErrorEvent; the cause is kept as its formatted message. -/
def NewErrorEvent (err : String) : RecognitionEvent :=
  { zeroEvent with type := EventError, error := some err }

/-- stt.NewInputDoneEvent. -/
def NewInputDoneEvent : RecognitionEvent := { zeroEvent with type := EventInputDone }

/-- stt.NewProcessingEvent. -/
def NewProcessingEvent : RecognitionEvent := { zeroEvent with type := EventProcessing }

/-- stt.NewClosedEvent. -/
def NewClosedEvent : RecognitionEvent := { zeroEvent with type := EventClosed }

/-- The mutable fields of an stt.Session touched by the handshake. The event
channel is modelled as the list of events pushed so far, in push order; its
capacity of 100 never binds in any trace considered here, so the
drop-when-full branch of sendEvent is not exercised. -/
structure SttSession where
  id : String
  ready : Bool
  closed : Bool
  events : List RecognitionEvent
deriving DecidableEq, Repr

/-- A session as built by stt.newSession: ID unset, not ready, not closed. -/
def freshSttSession : SttSession :=
  { id := "", ready := false, closed := false, events := [] }

/-- Errors surfaced by session start. -/
inductive StartErr where
  | receiveFailed (e : String)
  | parseReadyFailed
  | unexpectedFirst (got : MessageType)
  | parseReadyBodyFailed
  | sendConfigFailed
deriving DecidableEq, Repr

/-- stt.Session.waitReady: receives the first inbound frame, requires its tag
to be session.ready, stores the session ID from its body, marks the session
ready and pushes the ready event. On every failure path the session fields
are left untouched. The Receive outcome (frame, or context/connection
failure) is passed in as recv. -/
def sttWaitReady (recv : Except String WireData) (s : SttSession) :
    Except StartErr Unit × SttSession :=
  match recv with
  | .error e => (.error (.receiveFailed e), s)
  | .ok data =>
    match ParseMessageType data with
    | .error _ => (.error .parseReadyFailed, s)
    | .ok msgType =>
      if msgType = MessageTypeSessionReady then
        match ParseMessage data with
        | .ok (.sessionReady ready) =>
            let s1 := { s with id := ready.sessionID, ready := true }
            (.ok (), { s1 with events := s1.events ++ [NewReadyEvent s1.id] })
        | _ => (.error .parseReadyBodyFailed, s)
      else (.error (.unexpectedFirst msgType), s)

/-- stt.Session.start: waitReady, then sendConfig, then the message loop is
launched. The SendJSON outcome of the config frame is passed in. -/
def sttStart (recv : Except String WireData) (sendConfigResult : Except String Unit)
    (s : SttSession) : Except StartErr Unit × SttSession :=
  match sttWaitReady recv s with
  | (.error e, s1) => (.error e, s1)
  | (.ok _, s1) =>
    match sendConfigResult with
    | .error _ => (.error .sendConfigFailed, s1)
    | .ok _ => (.ok (), s1)

/-- stt.Session.handlePartial: parse failures are logged and skipped. -/
def sttHandlePartialResult (data : WireData) : List RecognitionEvent :=
  match ParseMessage data with
  | .ok (.transcriptPartialMsg m) => [NewPartialEvent m.text]
  | _ => []

/-- stt.Session.handleFinal: start and end offsets arrive in milliseconds and
are converted to durations. -/
def sttHandleFinal (data : WireData) : List RecognitionEvent :=
  match ParseMessage data with
  | .ok (.transcriptFinal m) =>
      [NewFinalEvent m.text (m.startTime * millisecondNs) (m.endTime * millisecondNs)]
  | _ => []

/-- stt.Session.handleError: the error event carries the composite cause
formatted from the code and message of the frame. -/
def sttHandleErrorMsg (data : WireData) : List RecognitionEvent :=
  match ParseMessage data with
  | .ok (.errorMessage m) =>
      [NewErrorEvent ("[" ++ m.code ++ "] " ++ m.message)]
  | _ => []

/-- stt.Session.handleMessage: dispatches on the tag; a malformed frame or a
tag outside the five dispatched cases is logged and skipped, producing no
event. -/
def sttHandleMessage (data : WireData) : List RecognitionEvent :=
  match ParseMessageType data with
  | .error _ => []
  | .ok msgType =>
    if msgType = MessageTypeTranscriptPartialMsg then sttHandlePartialResult data
    else if msgType = MessageTypeTranscriptFinal then sttHandleFinal data
    else if msgType = MessageTypeInputDone then [NewInputDoneEvent]
    else if msgType = MessageTypeProcessing then [NewProcessingEvent]
    else if msgType = MessageTypeError then sttHandleErrorMsg data
    else []

/-- One firing of the select in a session message loop: caller context done,
session close signal, a connection-level error, or an inbound frame. -/
inductive LoopInput where
  | ctxDone
  | closeSignal
  | connErr (e : String)
  | frame (data : WireData)

/-- stt.Session.messageLoop over a list of select firings, in order: events
pushed and whether the loop has returned. Context done and the close signal
return silently; a connection-level error pushes an error event and returns;
a frame is handled and the loop continues. -/
def sttLoopRun : List LoopInput → List RecognitionEvent × Bool
  | [] => ([], false)
  | .ctxDone :: _ => ([], true)
  | .closeSignal :: _ => ([], true)
  | .connErr e :: _ => ([NewErrorEvent e], true)
  | .frame data :: rest =>
      let r := sttLoopRun rest
      (sttHandleMessage data ++ r.1, r.2)

/-- The events visible on the event stream: when the loop returns, its
deferred block pushes the final closed event and closes the channel. -/
def sttLoopEvents (inputs : List LoopInput) : List RecognitionEvent :=
  let r := sttLoopRun inputs
  if r.2 then r.1 ++ [NewClosedEvent] else r.1

/-- One effect of the session teardown sequence. -/
inductive TeardownStep where
  | sendSessionEndFrame
  | waitCloseGrace
  | cancelCtxStep
  | closeCloseChStep
  | connCloseStep
  | forceCompleteStream
deriving DecidableEq, Repr

/-- The state a Close call observes: the sync.Once flag, the closed field and
the teardown effects performed so far, in order. The body of closeOnce.Do is
atomic with respect to other Do calls on the same Once, so any concurrent set
of Close invocations is modelled as a sequence of atomic close steps. -/
structure CloseState where
  onceDone : Bool
  closed : Bool
  steps : List TeardownStep
deriving DecidableEq, Repr

/-- The close state of a session before any Close call. -/
def freshCloseState : CloseState := { onceDone := false, closed := false, steps := [] }

/-- stt.Session.Close: inside the once body it marks the session closed,
sends session.end, waits up to the two-second grace period for the close
frame of the gateway, closes the session close channel and closes the
connection. A call finding the once flag set returns with no effect. -/
def sttClose (s : CloseState) : CloseState :=
  if s.onceDone then s
  else
    { onceDone := true, closed := true,
      steps := s.steps ++
        [.sendSessionEndFrame, .waitCloseGrace, .closeCloseChStep, .connCloseStep] }

/-- tts.Session.Close: same two-phase teardown, additionally cancelling the
session context and force-completing the current stream if one is in
flight. -/
def ttsClose (s : CloseState) : CloseState :=
  if s.onceDone then s
  else
    { onceDone := true, closed := true,
      steps := s.steps ++
        [.sendSessionEndFrame, .waitCloseGrace, .cancelCtxStep,
         .closeCloseChStep, .connCloseStep, .forceCompleteStream] }

/-- The mutable fields of a tts.Session. Timestamps are abstract instants,
none meaning the go zero time; the current stream is the identifier of the
round stream it points to. -/
structure TtsSession where
  id : String
  ready : Bool
  closed : Bool
  seqNum : Nat
  currentStream : Option Nat
  roundCount : Nat
  synthesizing : Bool
  commitSentAt : Option Nat
  firstChunkReceivedAt : Option Nat
deriving DecidableEq, Repr

/-- A session as built by tts.newSession. -/
def freshTtsSession : TtsSession :=
  { id := "", ready := false, closed := false, seqNum := 0,
    currentStream := none, roundCount := 0, synthesizing := false,
    commitSentAt := none, firstChunkReceivedAt := none }

/-- tts.Session.waitReady: identical checks to the stt handshake; no ready
event is pushed. -/
def ttsWaitReady (recv : Except String WireData) (s : TtsSession) :
    Except StartErr Unit × TtsSession :=
  match recv with
  | .error e => (.error (.receiveFailed e), s)
  | .ok data =>
    match ParseMessageType data with
    | .error _ => (.error .parseReadyFailed, s)
    | .ok msgType =>
      if msgType = MessageTypeSessionReady then
        match ParseMessage data with
        | .ok (.sessionReady ready) =>
            (.ok (), { s with id := ready.sessionID, ready := true })
        | _ => (.error .parseReadyBodyFailed, s)
      else (.error (.unexpectedFirst msgType), s)

/-- tts.Session.start: waitReady then sendConfig then the message loop. -/
def ttsStart (recv : Except String WireData) (sendConfigResult : Except String Unit)
    (s : TtsSession) : Except StartErr Unit × TtsSession :=
  match ttsWaitReady recv s with
  | (.error e, s1) => (.error e, s1)
  | (.ok _, s1) =>
    match sendConfigResult with
    | .error _ => (.error .sendConfigFailed, s1)
    | .ok _ => (.ok (), s1)

/-- Errors of tts.Session.SynthesizeStream. -/
inductive SynthErr where
  | sessionClosed
  | sessionNotReady
  | roundInFlight
  | sendTextFailed (e : String)
  | sendCommitFailed (e : String)
deriving DecidableEq, Repr

/-- A frame written to the connection by a session operation. -/
inductive SentFrame where
  | textAppendFrame (text : String)
  | inputCommitFrame
deriving DecidableEq, Repr

/-- tts.Session.SynthesizeStream: rejects a closed, unready or synthesizing
session before any side effect; otherwise resets the per-round first-chunk
time, installs a fresh stream as the current round, increments the round
counter, sends text.append, records the commit time, sends input.commit and
returns the stream. A send failure rolls back the current stream and the
synthesizing flag. The returned list holds the frames actually written. -/
def ttsSynthesizeStream (s : TtsSession) (text : String) (now : Nat)
    (sendTextResult sendCommitResult : Except String Unit) :
    Except SynthErr Nat × TtsSession × List SentFrame :=
  if s.closed then (.error .sessionClosed, s, [])
  else if !s.ready then (.error .sessionNotReady, s, [])
  else if s.synthesizing then (.error .roundInFlight, s, [])
  else
    let s1 := { s with firstChunkReceivedAt := none }
    let streamId := s1.roundCount + 1
    let s2 := { s1 with currentStream := some streamId, synthesizing := true,
                        roundCount := s1.roundCount + 1 }
    match sendTextResult with
    | .error e =>
        (.error (.sendTextFailed e),
         { s2 with currentStream := none, synthesizing := false }, [])
    | .ok _ =>
      let s3 := { s2 with commitSentAt := some now }
      match sendCommitResult with
      | .error e =>
          (.error (.sendCommitFailed e),
           { s3 with currentStream := none, synthesizing := false },
           [.textAppendFrame text])
      | .ok _ => (.ok streamId, s3, [.textAppendFrame text, .inputCommitFrame])

/-- A push into the audio stream of the current round. -/
inductive PushAction where
  | pushDataAct (bytes : List Nat) (seq : Nat)
  | pushDoneAct
  | pushErrAct (e : String)
deriving DecidableEq, Repr

/-- The first statement of tts.Session.handleAudioDelta: the first-chunk time
is stamped at demultiplex time, before the body is parsed or decoded. -/
def stampFirstChunk (now : Nat) (s : TtsSession) : TtsSession :=
  if s.firstChunkReceivedAt = none then { s with firstChunkReceivedAt := some now }
  else s

/-- tts.Session.handleAudioDelta: stamps the first-chunk time, parses the
body, base64-decodes the payload, bumps the per-session sequence number and
pushes the bytes into the current stream if one is installed. A body parse
failure or a base64 failure is logged and the frame is skipped. -/
def ttsHandleAudioDelta (now : Nat) (data : WireData) (s : TtsSession) :
    TtsSession × List PushAction :=
  let s1 := stampFirstChunk now s
  match ParseMessage data with
  | .ok (.audioDelta delta) =>
    match base64Decode delta.audio with
    | none => (s1, [])
    | some audioData =>
      let s2 := { s1 with seqNum := s1.seqNum + 1 }
      match s2.currentStream with
      | some _ => (s2, [.pushDataAct audioData s2.seqNum])
      | none => (s2, [])
  | _ => (s1, [])

/-- tts.Session.handleAudioDone: detaches the current stream, leaves the
synthesizing state and pushes the completion sentinel into the detached
stream when there was one. -/
def ttsHandleAudioDone (s : TtsSession) : TtsSession × List PushAction :=
  let detached := { s with currentStream := none, synthesizing := false }
  match s.currentStream with
  | some _ => (detached, [.pushDoneAct])
  | none => (detached, [])

/-- tts.Session.handleError: parses the frame, detaches the current stream
and pushes the composite error into the detached stream when there was
one. -/
def ttsHandleErrorMsg (data : WireData) (s : TtsSession) :
    TtsSession × List PushAction :=
  match ParseMessage data with
  | .ok (.errorMessage em) =>
    let detached := { s with currentStream := none, synthesizing := false }
    match s.currentStream with
    | some _ => (detached, [.pushErrAct ("[" ++ em.code ++ "] " ++ em.message)])
    | none => (detached, [])
  | _ => (s, [])

/-- tts.Session.handleMessage: dispatches on the tag; a malformed frame or a
tag outside the three dispatched cases is logged and skipped. -/
def ttsHandleMessage (now : Nat) (data : WireData) (s : TtsSession) :
    TtsSession × List PushAction :=
  match ParseMessageType data with
  | .error _ => (s, [])
  | .ok msgType =>
    if msgType = MessageTypeAudioDelta then ttsHandleAudioDelta now data s
    else if msgType = MessageTypeAudioDone then ttsHandleAudioDone s
    else if msgType = MessageTypeError then ttsHandleErrorMsg data s
    else (s, [])

/-- tts.AudioChunk: data bytes with a sequence number, or the completion
sentinel, or an error sentinel. -/
structure AudioChunk where
  data : List Nat
  sequence : Nat
  isDone : Bool
  error : Option String
deriving DecidableEq, Repr

/-- A plain data chunk. -/
def dataChunk (bytes : List Nat) (seq : Nat) : AudioChunk :=
  { data := bytes, sequence := seq, isDone := false, error := none }

/-- The completion sentinel chunk. -/
def doneChunk : AudioChunk :=
  { data := [], sequence := 0, isDone := true, error := none }

/-- The state of a tts.AudioStream: the drain buffer, the chunks buffered in
the channel in arrival order, whether the channel has been closed by the
producer, the closed flag of the reader side, the running byte count and the
recorded error. -/
structure AudioStreamState where
  buffer : List Nat
  pending : List AudioChunk
  chClosed : Bool
  closed : Bool
  totalSize : Nat
  err : Option String
deriving DecidableEq, Repr

/-- tts.newAudioStream. -/
def newAudioStream : AudioStreamState :=
  { buffer := [], pending := [], chClosed := false, closed := false,
    totalSize := 0, err := none }

/-- The capacity of the chunks channel. -/
def audioChunkChanCap : Nat := 100

/-- tts.AudioStream.pushData via pushChunk: a blocking send, a no-op once the
channel is marked closed. Blocking until capacity is available is modelled by
the chunk landing in the channel. -/
def audioStreamPushData (bytes : List Nat) (seq : Nat) (s : AudioStreamState) :
    AudioStreamState :=
  if s.chClosed then s
  else { s with pending := s.pending ++ [dataChunk bytes seq] }

/-- tts.AudioStream.pushDone: under the once guard it enqueues the completion
sentinel non-blockingly if the channel has room, then marks and closes the
channel. -/
def audioStreamPushDone (s : AudioStreamState) : AudioStreamState :=
  if s.chClosed then s
  else
    { s with
      pending := if s.pending.length < audioChunkChanCap
                 then s.pending ++ [doneChunk] else s.pending,
      chClosed := true }

/-- tts.AudioStream.pushError: like pushDone with an error sentinel, also
recording the error on the stream. -/
def audioStreamPushError (e : String) (s : AudioStreamState) : AudioStreamState :=
  if s.chClosed then { s with err := some e }
  else
    { s with
      err := some e,
      pending := if s.pending.length < audioChunkChanCap
                 then s.pending ++ [{ data := [], sequence := 0, isDone := false,
                                      error := some e }]
                 else s.pending,
      chClosed := true }

/-- Outcome of one Read call on an audio stream. -/
inductive ReadResult where
  | bytes (bs : List Nat)
  | eof
  | readErr (e : String)
  | blocked
deriving DecidableEq, Repr

/-- tts.AudioStream.Read with a destination buffer of size cap: drains the
internal buffer first; on an empty buffer a closed stream reports
end-of-stream; otherwise the next chunk is taken from the channel: a closed
empty channel or the completion sentinel closes the stream with
end-of-stream, an error sentinel surfaces its error, and a data chunk is
appended to the buffer, counted into the total size and drained. An open
empty channel would block the reader; that suspension is the blocked
result. -/
def audioStreamRead (cap : Nat) (s : AudioStreamState) :
    ReadResult × AudioStreamState :=
  if s.buffer.isEmpty = false then
    (.bytes (s.buffer.take cap), { s with buffer := s.buffer.drop cap })
  else if s.closed then (.eof, s)
  else
    match s.pending with
    | [] =>
      if s.chClosed then (.eof, { s with closed := true })
      else (.blocked, s)
    | chunk :: rest =>
      if chunk.isDone then (.eof, { s with pending := rest, closed := true })
      else
        match chunk.error with
        | some e => (.readErr e, { s with pending := rest })
        | none =>
          let s1 := { s with
            pending := rest,
            buffer := s.buffer ++ chunk.data,
            totalSize := s.totalSize + chunk.data.length }
          (.bytes (s1.buffer.take cap), { s1 with buffer := s1.buffer.drop cap })

/-- tts.AudioStream.TotalSize. -/
def audioStreamTotalSize (s : AudioStreamState) : Nat := s.totalSize

/-- Repeated Read calls with buffer size cap, collecting the returned bytes
until end-of-stream, an error, a blocked read or fuel exhaustion; the flag
reports that end-of-stream was reached. -/
def audioStreamReadAll (cap : Nat) :
    Nat → AudioStreamState → List Nat × AudioStreamState × Bool
  | 0, s => ([], s, false)
  | fuel + 1, s =>
    match audioStreamRead cap s with
    | (.bytes bs, s1) =>
      let r := audioStreamReadAll cap fuel s1
      (bs ++ r.1, r.2.1, r.2.2)
    | (.eof, s1) => ([], s1, true)
    | (.readErr _, s1) => ([], s1, false)
    | (.blocked, s1) => ([], s1, false)

/-- The idle timeout of the simplified recognize operations (seconds). -/
def recognizeIdleTimeout : Nat := 10

/-- stt.Segment. -/
structure Segment where
  text : String
  isFinal : Bool
  startTime : Int
  endTime : Int
deriving DecidableEq, Repr

/-- The loop state of stt.Client.RecognizeFile / RecognizeBytes: whether the
commit has been sent, the idle timer (none while stopped, some d once reset
to the idle budget d), the count of timer resets, and the accumulating
result. -/
structure RecLoopState where
  committed : Bool
  timer : Option Nat
  resets : Nat
  texts : List String
  segments : List Segment
  error : Option String
deriving DecidableEq, Repr

/-- The loop state on entry: not committed, timer stopped and drained. -/
def freshRecLoopState : RecLoopState :=
  { committed := false, timer := none, resets := 0, texts := [],
    segments := [], error := none }

/-- One firing of the select in the recognize event loop. -/
inductive RecInput where
  | ctxDone
  | sendDone (r : Except String Unit)
  | ev (e : RecognitionEvent)
  | evChanClosed
  | idleFire

/-- Outcome of one loop step: continue, break out of the loop, or return a
send failure. -/
inductive RecStep where
  | continueLoop (s : RecLoopState)
  | breakLoop (s : RecLoopState)
  | failSend (e : String)

/-- One step of the recognize event loop, following the select of the
source: context done breaks; a send failure returns it; send completion
marks committed and resets the idle timer; an event resets the idle timer
when committed, then final transcripts are accumulated, error events record
the error, input.done and closed break; timer expiry breaks. -/
def recognizeStep (i : RecInput) (s : RecLoopState) : RecStep :=
  match i with
  | .ctxDone => .breakLoop s
  | .sendDone (.error e) => .failSend e
  | .sendDone (.ok _) =>
      .continueLoop { s with committed := true,
                             timer := some recognizeIdleTimeout,
                             resets := s.resets + 1 }
  | .evChanClosed => .breakLoop s
  | .ev e =>
    let s1 := if s.committed
              then { s with timer := some recognizeIdleTimeout,
                            resets := s.resets + 1 }
              else s
    if e.type = EventFinal then
      .continueLoop
        { s1 with texts := s1.texts ++ [e.text],
                  segments := s1.segments ++
                    [{ text := e.text, isFinal := true,
                       startTime := e.startTime, endTime := e.endTime }] }
    else if e.type = EventError then
      .continueLoop { s1 with error := e.error }
    else if e.type = EventInputDone then .breakLoop s1
    else if e.type = EventClosed then .breakLoop s1
    else .continueLoop s1
  | .idleFire => .breakLoop s

/-- Outcome of running the recognize event loop on a list of select firings. -/
inductive RecOutcome where
  | running (s : RecLoopState)
  | finished (s : RecLoopState)
  | failed (e : String)
deriving DecidableEq, Repr

/-- The recognize event loop over its select firings, in order. -/
def runRecLoop : List RecInput → RecLoopState → RecOutcome
  | [], s => .running s
  | i :: rest, s =>
    match recognizeStep i s with
    | .continueLoop s1 => runRecLoop rest s1
    | .breakLoop s1 => .finished s1
    | .failSend e => .failed e

/-- The value RecognizeFile returns once the loop has broken: the joined
text and the segments on success, the recorded error otherwise. -/
def recResult (s : RecLoopState) : Except String (String × List Segment) :=
  match s.error with
  | some e => .error e
  | none => .ok (String.join s.texts, s.segments)

lemma lookupField_foldl (fs : List (String × Json)) (name : String)
    (i : Option Json) :
    fs.foldl (fun acc kv => if kv.fst = name then some kv.snd else acc) i =
      match lookupField fs name with
      | some v => some v
      | none => i := by
  induction fs generalizing i with
  | nil => rfl
  | cons kv rest ih =>
    simp only [lookupField, List.foldl_cons] at ih ⊢
    rw [ih (if kv.fst = name then some kv.snd else i),
        ih (if kv.fst = name then some kv.snd else none)]
    by_cases h : kv.fst = name
    · simp only [h, if_true]
      cases List.foldl (fun acc kv => if kv.fst = name then some kv.snd else acc)
        none rest <;> rfl
    · simp only [h, if_false]
      cases List.foldl (fun acc kv => if kv.fst = name then some kv.snd else acc)
        none rest <;> rfl

lemma lookupField_append (a b : List (String × Json)) (k : String) :
    lookupField (a ++ b) k =
      match lookupField b k with
      | some v => some v
      | none => lookupField a k := by
  have h := lookupField_foldl b k (lookupField a k)
  unfold lookupField at h ⊢
  rw [List.foldl_append]
  exact h

lemma lookupField_omitStr (n s k) :
    lookupField (omitStr n s) k =
      if n = k ∧ s ≠ "" then some (.str s) else none := by
  unfold omitStr lookupField
  by_cases hs : s = "" <;> by_cases hk : n = k <;> simp [hs, hk]

lemma lookupField_omitNum (n : String) (q : Rat) (k : String) :
    lookupField (omitNum n q) k =
      if n = k ∧ q ≠ 0 then some (.num q) else none := by
  unfold omitNum lookupField
  by_cases hs : q = 0 <;> by_cases hk : n = k <;> simp [hs, hk]

lemma lookupField_nil (k : String) : lookupField [] k = none := rfl

lemma lookupField_cons (n : String) (v : Json) (fs : List (String × Json))
    (k : String) :
    lookupField ((n, v) :: fs) k =
      match lookupField fs k with
      | some w => some w
      | none => if n = k then some v else none := by
  have h := lookupField_foldl fs k (if n = k then some v else none)
  unfold lookupField at h ⊢
  simp only [List.foldl_cons]
  exact h

lemma omitNum_intCast (n : String) (i : Int) :
    omitNum n (i : Rat) = if i = 0 then [] else [(n, .num (i : Rat))] := by
  unfold omitNum
  by_cases h : i = 0 <;> simp [h]

/-- C9 counterexample: a well-formed JSON object with no type tag does not
make ParseMessageType fail; it returns the empty tag without error. -/
theorem c9_missing_tag_counterexample :
    ParseMessageType (WireData.json (Json.obj [])) = .ok "" ∧
    ∀ e, ParseMessageType (WireData.json (Json.obj [])) ≠ .error e := by
  exact ⟨rfl, fun e => by simp [ParseMessageType, unmarshalRawMessage, decodeStringField, lookupField]⟩

/-- C9 (amended): ParseMessageType extracts only the discriminant field; it
fails exactly when json.Unmarshal fails, that is on malformed bytes, on a
non-object non-null document, or on a type field holding a value that is
neither a string nor null; a well-formed object without the tag yields the
empty tag with no error, and every well-formed tagged frame yields its tag
with no error. -/
theorem c9_parse_type_spec :
    ParseMessageType .malformed = .error .typeParse ∧
    (∀ fs t, lookupField fs "type" = some (.str t) →
        ParseMessageType (.json (.obj fs)) = .ok t) ∧
    (∀ fs, lookupField fs "type" = none →
        ParseMessageType (.json (.obj fs)) = .ok "") ∧
    (∀ fs, lookupField fs "type" = some .null →
        ParseMessageType (.json (.obj fs)) = .ok "") ∧
    (∀ fs q, lookupField fs "type" = some (.num q) →
        ParseMessageType (.json (.obj fs)) = .error .typeParse) ∧
    ParseMessageType (.json .null) = .ok "" ∧
    (∀ q, ParseMessageType (.json (.num q)) = .error .typeParse) ∧
    (∀ s, ParseMessageType (.json (.str s)) = .error .typeParse) ∧
    (∀ b, ParseMessageType (.json (.bool b)) = .error .typeParse) ∧
    (∀ xs, ParseMessageType (.json (.arr xs)) = .error .typeParse) := by
  refine ⟨rfl, ?_, ?_, ?_, ?_, rfl, fun q => rfl, fun s => rfl, fun b => rfl,
          fun xs => rfl⟩
  · intro fs t h
    simp [ParseMessageType, unmarshalRawMessage, decodeStringField, h]
  · intro fs h
    simp [ParseMessageType, unmarshalRawMessage, decodeStringField, h]
  · intro fs h
    simp [ParseMessageType, unmarshalRawMessage, decodeStringField, h]
  · intro fs q h
    simp [ParseMessageType, unmarshalRawMessage, decodeStringField, h]

/-- C9 witness: a concrete tagged frame and its extracted tag. -/
theorem c9_parse_type_spec_witness :
    ParseMessageType (.json (.obj [("type", .str "transcript.partial")])) =
      .ok "transcript.partial" :=
  c9_parse_type_spec.2.1 [("type", .str "transcript.partial")]
    "transcript.partial" rfl

/-- The field list json.Marshal produces for SessionParams. -/
def paramsFieldList (p : SessionParams) : List (String × Json) :=
  omitStr "provider" p.provider ++ omitStr "language" p.language ++
  omitNum "sample_rate" (p.sampleRate : Rat) ++
  omitStr "audio_format" p.audioFormat ++ omitStr "voice_id" p.voiceID ++
  omitNum "speed" p.speed ++ omitNum "pitch" p.pitch ++ omitNum "volume" p.volume

lemma decode_params_provider (p : SessionParams) :
    decodeStringField (paramsFieldList p) "provider" = .ok p.provider := by
  by_cases h : p.provider = "" <;>
    simp [paramsFieldList, decodeStringField, lookupField_append,
          lookupField_omitStr, lookupField_omitNum, h]

lemma decode_params_language (p : SessionParams) :
    decodeStringField (paramsFieldList p) "language" = .ok p.language := by
  by_cases h : p.language = "" <;>
    simp [paramsFieldList, decodeStringField, lookupField_append,
          lookupField_omitStr, lookupField_omitNum, h]

lemma decode_params_sampleRate (p : SessionParams) :
    decodeIntField (paramsFieldList p) "sample_rate" = .ok p.sampleRate := by
  by_cases h : p.sampleRate = 0 <;>
    simp [paramsFieldList, decodeIntField, lookupField_append,
          lookupField_omitStr, lookupField_omitNum, h, Rat.den_intCast,
          Rat.num_intCast]

lemma decode_params_audioFormat (p : SessionParams) :
    decodeStringField (paramsFieldList p) "audio_format" = .ok p.audioFormat := by
  by_cases h : p.audioFormat = "" <;>
    simp [paramsFieldList, decodeStringField, lookupField_append,
          lookupField_omitStr, lookupField_omitNum, h]

lemma decode_params_voiceID (p : SessionParams) :
    decodeStringField (paramsFieldList p) "voice_id" = .ok p.voiceID := by
  by_cases h : p.voiceID = "" <;>
    simp [paramsFieldList, decodeStringField, lookupField_append,
          lookupField_omitStr, lookupField_omitNum, h]

lemma decode_params_speed (p : SessionParams) :
    decodeFloatField (paramsFieldList p) "speed" = .ok p.speed := by
  by_cases h : p.speed = 0 <;>
    simp [paramsFieldList, decodeFloatField, lookupField_append,
          lookupField_omitStr, lookupField_omitNum, h]

lemma decode_params_pitch (p : SessionParams) :
    decodeFloatField (paramsFieldList p) "pitch" = .ok p.pitch := by
  by_cases h : p.pitch = 0 <;>
    simp [paramsFieldList, decodeFloatField, lookupField_append,
          lookupField_omitStr, lookupField_omitNum, h]

lemma decode_params_volume (p : SessionParams) :
    decodeFloatField (paramsFieldList p) "volume" = .ok p.volume := by
  by_cases h : p.volume = 0 <;>
    simp [paramsFieldList, decodeFloatField, lookupField_append,
          lookupField_omitStr, lookupField_omitNum, h]

lemma unmarshalSessionParams_marshal (p : SessionParams) :
    unmarshalSessionParams (marshalSessionParams p) = .ok p := by
  have hm : marshalSessionParams p = .obj (paramsFieldList p) := rfl
  rw [hm]
  simp [unmarshalSessionParams, decode_params_provider, decode_params_language,
        decode_params_sampleRate, decode_params_audioFormat,
        decode_params_voiceID, decode_params_speed, decode_params_pitch,
        decode_params_volume, Except.bind, Bind.bind]

/-- C8 counterexample: the session.config_done variant does not round-trip;
the parser switch has no case for its tag and rejects the encoded frame as an
unknown message type. -/
theorem c8_config_done_roundtrip_counterexample :
    ParseMessage (.json (EncodeMessage (.sessionConfigDone NewSessionConfigDone))) =
      .error (.unknownType "session.config_done") := by rfl

/-- C8 (amended): encoding any well-tagged message variant other than
session.config_done and decoding the result yields the original value in all
fields; the session.config_done variant alone fails to round-trip. -/
theorem c8_roundtrip_except_config_done (m : ParsedMessage)
    (htag : wellTagged m) (hnot : isSessionConfigDone m = false) :
    ParseMessage (.json (EncodeMessage m)) = .ok m := by
  cases m with
  | sessionConfigDone r => simp [isSessionConfigDone] at hnot
  | sessionReady r =>
    obtain ⟨t, sid⟩ := r
    have ht : t = MessageTypeSessionReady := htag
    subst ht
    rfl
  | transcriptPartialMsg r =>
    obtain ⟨t, tx⟩ := r
    have ht : t = MessageTypeTranscriptPartialMsg := htag
    subst ht
    rfl
  | transcriptFinal r =>
    obtain ⟨t, tx, st, en⟩ := r
    have ht : t = MessageTypeTranscriptFinal := htag
    subst ht
    show ParseMessage (.json (.obj ([("type", .str MessageTypeTranscriptFinal),
      ("text", .str tx)] ++ omitNum "start_time" (st : Rat) ++
      omitNum "end_time" (en : Rat)))) = _
    by_cases h1 : st = 0 <;> by_cases h2 : en = 0 <;>
      simp [ParseMessage, ParseMessageType, unmarshalRawMessage,
            unmarshalTranscriptFinal, decodeStringField, decodeIntField,
            lookupField_cons, lookupField_nil, lookupField_append,
            lookupField_omitNum, omitNum_intCast, h1, h2,
            MessageTypeSessionReady, MessageTypeTranscriptPartialMsg,
            MessageTypeTranscriptFinal, Rat.den_intCast, Rat.num_intCast,
            Except.bind, Bind.bind]
  | audioDelta r =>
    obtain ⟨t, a⟩ := r
    have ht : t = MessageTypeAudioDelta := htag
    subst ht
    rfl
  | audioDone r =>
    obtain ⟨t⟩ := r
    have ht : t = MessageTypeAudioDone := htag
    subst ht
    rfl
  | inputDone r =>
    obtain ⟨t⟩ := r
    have ht : t = MessageTypeInputDone := htag
    subst ht
    rfl
  | processing r =>
    obtain ⟨t⟩ := r
    have ht : t = MessageTypeProcessing := htag
    subst ht
    rfl
  | errorMessage r =>
    obtain ⟨t, c, msg⟩ := r
    have ht : t = MessageTypeError := htag
    subst ht
    rfl
  | sessionConfig r =>
    obtain ⟨t, ps⟩ := r
    have ht : t = MessageTypeSessionConfig := htag
    subst ht
    show ParseMessage (.json (.obj [("type", .str MessageTypeSessionConfig),
      ("session", marshalSessionParams ps)])) = _
    simp [ParseMessage, ParseMessageType, unmarshalRawMessage,
          unmarshalSessionConfig, decodeStringField, lookupField_cons,
          lookupField_nil, unmarshalSessionParams_marshal,
          MessageTypeSessionReady, MessageTypeTranscriptPartialMsg,
          MessageTypeTranscriptFinal, MessageTypeAudioDelta,
          MessageTypeAudioDone, MessageTypeInputDone, MessageTypeProcessing,
          MessageTypeError, MessageTypeSessionConfig, Except.bind, Bind.bind]
  | audioAppend r =>
    obtain ⟨t, a⟩ := r
    have ht : t = MessageTypeAudioAppend := htag
    subst ht
    rfl
  | textAppend r =>
    obtain ⟨t, tx⟩ := r
    have ht : t = MessageTypeTextAppend := htag
    subst ht
    rfl
  | inputCommit r =>
    obtain ⟨t⟩ := r
    have ht : t = MessageTypeInputCommit := htag
    subst ht
    rfl
  | sessionEnd r =>
    obtain ⟨t⟩ := r
    have ht : t = MessageTypeSessionEnd := htag
    subst ht
    rfl

/-- C8 witness: a concrete final-transcript message round-trips. -/
theorem c8_roundtrip_witness :
    ParseMessage (.json (EncodeMessage
      (.transcriptFinal { type := "transcript.final", text := "hello",
                          startTime := 120, endTime := 480 }))) =
    .ok (.transcriptFinal { type := "transcript.final", text := "hello",
                            startTime := 120, endTime := 480 }) :=
  c8_roundtrip_except_config_done _ rfl rfl

/-- C1: for a fresh recognition or synthesis session, start succeeds only
when the first inbound frame is the session.ready variant, and then the
session ID is the session_id of that frame and the session is ready; if the
first frame carries any other tag, start fails with the protocol error
naming that tag and the session is left untouched, its ID unset and never
ready. -/
theorem c1_start_requires_ready :
    (∀ (recv : Except String WireData) (scr : Except String Unit),
      (sttStart recv scr freshSttSession).1 = .ok () →
      ∃ data m, recv = .ok data ∧
        ParseMessageType data = .ok MessageTypeSessionReady ∧
        ParseMessage data = .ok (.sessionReady m) ∧
        (sttStart recv scr freshSttSession).2.id = m.sessionID ∧
        (sttStart recv scr freshSttSession).2.ready = true) ∧
    (∀ (data : WireData) (t : MessageType) (scr : Except String Unit),
      ParseMessageType data = .ok t → t ≠ MessageTypeSessionReady →
      sttStart (.ok data) scr freshSttSession =
        (.error (.unexpectedFirst t), freshSttSession)) ∧
    (∀ (recv : Except String WireData) (scr : Except String Unit),
      (ttsStart recv scr freshTtsSession).1 = .ok () →
      ∃ data m, recv = .ok data ∧
        ParseMessageType data = .ok MessageTypeSessionReady ∧
        ParseMessage data = .ok (.sessionReady m) ∧
        (ttsStart recv scr freshTtsSession).2.id = m.sessionID ∧
        (ttsStart recv scr freshTtsSession).2.ready = true) ∧
    (∀ (data : WireData) (t : MessageType) (scr : Except String Unit),
      ParseMessageType data = .ok t → t ≠ MessageTypeSessionReady →
      ttsStart (.ok data) scr freshTtsSession =
        (.error (.unexpectedFirst t), freshTtsSession)) := by
  refine ⟨?_, ?_, ?_, ?_⟩
  · intro recv scr h
    rcases recv with e | data
    · simp [sttStart, sttWaitReady] at h
    · rcases hpt : ParseMessageType data with e | t
      · simp [sttStart, sttWaitReady, hpt] at h
      · by_cases ht : t = MessageTypeSessionReady
        · subst ht
          rcases hpm : ParseMessage data with e | pm
          · simp [sttStart, sttWaitReady, hpt, hpm] at h
          · cases pm
            next m =>
              rcases scr with e | u
              · simp [sttStart, sttWaitReady, hpt, hpm] at h
              · exact ⟨data, m, rfl, hpt, hpm, by
                  simp [sttStart, sttWaitReady, hpt, hpm], by
                  simp [sttStart, sttWaitReady, hpt, hpm]⟩
            all_goals simp [sttStart, sttWaitReady, hpt, hpm] at h
        · simp [sttStart, sttWaitReady, hpt, ht] at h
  · intro data t scr hpt ht
    simp [sttStart, sttWaitReady, hpt, ht]
  · intro recv scr h
    rcases recv with e | data
    · simp [ttsStart, ttsWaitReady] at h
    · rcases hpt : ParseMessageType data with e | t
      · simp [ttsStart, ttsWaitReady, hpt] at h
      · by_cases ht : t = MessageTypeSessionReady
        · subst ht
          rcases hpm : ParseMessage data with e | pm
          · simp [ttsStart, ttsWaitReady, hpt, hpm] at h
          · cases pm
            next m =>
              rcases scr with e | u
              · simp [ttsStart, ttsWaitReady, hpt, hpm] at h
              · exact ⟨data, m, rfl, hpt, hpm, by
                  simp [ttsStart, ttsWaitReady, hpt, hpm], by
                  simp [ttsStart, ttsWaitReady, hpt, hpm]⟩
            all_goals simp [ttsStart, ttsWaitReady, hpt, hpm] at h
        · simp [ttsStart, ttsWaitReady, hpt, ht] at h
  · intro data t scr hpt ht
    simp [ttsStart, ttsWaitReady, hpt, ht]

/-- C1 witness: a fresh connection whose first frame is transcript.partial
makes start fail with the protocol error and leaves the session fresh. -/
theorem c1_start_requires_ready_witness :
    sttStart
      (.ok (.json (.obj [("type", .str "transcript.partial"),
                         ("text", .str "hi")])))
      (.ok ()) freshSttSession =
      (.error (.unexpectedFirst "transcript.partial"), freshSttSession) :=
  c1_start_requires_ready.2.1 _ _ _ rfl (by decide)

lemma sttClose_fixed (s : CloseState) : sttClose (sttClose s) = sttClose s := by
  unfold sttClose
  by_cases h : s.onceDone <;> simp [h]

lemma ttsClose_fixed (s : CloseState) : ttsClose (ttsClose s) = ttsClose s := by
  unfold ttsClose
  by_cases h : s.onceDone <;> simp [h]

lemma sttClose_iterate (n : Nat) :
    (sttClose^[n + 1]) freshCloseState = sttClose freshCloseState := by
  rw [Function.iterate_succ_apply]
  exact Function.iterate_fixed (sttClose_fixed freshCloseState) n

lemma ttsClose_iterate (n : Nat) :
    (ttsClose^[n + 1]) freshCloseState = ttsClose freshCloseState := by
  rw [Function.iterate_succ_apply]
  exact Function.iterate_fixed (ttsClose_fixed freshCloseState) n

/-- C2: Close is idempotent for both session kinds: any number of
invocations from a fresh session performs the teardown exactly once (one
session.end frame, one close of the close channel, one connection close,
and for synthesis one context cancel and one stream force-completion), every
run beyond the first leaves the state untouched, and a repeated Close is a
fixed point. Concurrent invocation is covered because the body of
closeOnce.Do is atomic with respect to other Do calls on the same Once, so
any interleaving of callers executes as some sequence of these steps. -/
theorem c2_close_idempotent :
    (∀ n, 1 ≤ n →
      ((sttClose^[n]) freshCloseState).steps.count .sendSessionEndFrame = 1 ∧
      ((sttClose^[n]) freshCloseState).steps.count .closeCloseChStep = 1 ∧
      ((sttClose^[n]) freshCloseState).steps.count .connCloseStep = 1 ∧
      (sttClose^[n]) freshCloseState = sttClose freshCloseState) ∧
    (∀ s, sttClose (sttClose s) = sttClose s) ∧
    (∀ n, 1 ≤ n →
      ((ttsClose^[n]) freshCloseState).steps.count .sendSessionEndFrame = 1 ∧
      ((ttsClose^[n]) freshCloseState).steps.count .closeCloseChStep = 1 ∧
      ((ttsClose^[n]) freshCloseState).steps.count .connCloseStep = 1 ∧
      ((ttsClose^[n]) freshCloseState).steps.count .cancelCtxStep = 1 ∧
      ((ttsClose^[n]) freshCloseState).steps.count .forceCompleteStream = 1 ∧
      (ttsClose^[n]) freshCloseState = ttsClose freshCloseState) ∧
    (∀ s, ttsClose (ttsClose s) = ttsClose s) := by
  refine ⟨?_, sttClose_fixed, ?_, ttsClose_fixed⟩
  · intro n hn
    obtain ⟨m, rfl⟩ : ∃ m, n = m + 1 := ⟨n - 1, by omega⟩
    rw [sttClose_iterate]
    refine ⟨?_, ?_, ?_, rfl⟩ <;> rfl
  · intro n hn
    obtain ⟨m, rfl⟩ : ∃ m, n = m + 1 := ⟨n - 1, by omega⟩
    rw [ttsClose_iterate]
    refine ⟨?_, ?_, ?_, ?_, ?_, rfl⟩ <;> rfl

/-- C2 witness: three sequential Close calls on a recognition session send
exactly one session.end frame. -/
theorem c2_close_idempotent_witness :
    ((sttClose^[3]) freshCloseState).steps.count .sendSessionEndFrame = 1 ∧
    ((ttsClose^[3]) freshCloseState).steps.count .sendSessionEndFrame = 1 :=
  ⟨(c2_close_idempotent.1 3 (by decide)).1,
   (c2_close_idempotent.2.2.1 3 (by decide)).1⟩

/-- C3: a synthesis session with a round in flight rejects SynthesizeStream
with the round-in-flight error, writes no frame on the connection and leaves
the session exactly as it was; and a successful call from an idle ready
session installs exactly one current stream, sets synthesizing and bumps the
round counter by one, so at most one round is ever active. -/
theorem c3_synthesize_round_in_flight :
    (∀ (s : TtsSession) (text : String) (now : Nat)
        (str scr : Except String Unit),
      s.closed = false → s.ready = true → s.synthesizing = true →
      ttsSynthesizeStream s text now str scr = (.error .roundInFlight, s, [])) ∧
    (∀ (s : TtsSession) (text : String) (now : Nat),
      s.closed = false → s.ready = true → s.synthesizing = false →
      ttsSynthesizeStream s text now (.ok ()) (.ok ()) =
        (.ok (s.roundCount + 1),
         { s with firstChunkReceivedAt := none,
                  currentStream := some (s.roundCount + 1),
                  synthesizing := true,
                  roundCount := s.roundCount + 1,
                  commitSentAt := some now },
         [.textAppendFrame text, .inputCommitFrame])) := by
  constructor
  · intro s text now str scr hc hr hs
    simp [ttsSynthesizeStream, hc, hr, hs]
  · intro s text now hc hr hs
    simp [ttsSynthesizeStream, hc, hr, hs]

/-- C3 witness: a ready session in the middle of round one rejects a second
call unchanged, and the first call from idle succeeds. -/
theorem c3_synthesize_round_in_flight_witness :
    (ttsSynthesizeStream
      { freshTtsSession with ready := true, synthesizing := true,
                             currentStream := some 1, roundCount := 1 }
      "again" 5 (.ok ()) (.ok ()) =
      (.error .roundInFlight,
       { freshTtsSession with ready := true, synthesizing := true,
                              currentStream := some 1, roundCount := 1 },
       [])) ∧
    (ttsSynthesizeStream { freshTtsSession with ready := true } "hello" 3
        (.ok ()) (.ok ()) =
      (.ok 1,
       { freshTtsSession with ready := true, firstChunkReceivedAt := none,
                              currentStream := some 1, synthesizing := true,
                              roundCount := 1, commitSentAt := some 3 },
       [.textAppendFrame "hello", .inputCommitFrame])) :=
  ⟨c3_synthesize_round_in_flight.1 _ "again" 5 _ _ rfl rfl rfl,
   c3_synthesize_round_in_flight.2 _ "hello" 3 rfl rfl rfl⟩

/-- C4 counterexample: an error frame with code AUTH_ERROR arriving
mid-recognition yields one error event, but the message loop does not stop:
a following transcript.partial frame still produces a partial event after the
error event, no closed event is emitted and the event stream is still open. -/
theorem c4_error_frame_counterexample :
    sttLoopEvents
      [.frame (.json (.obj [("type", .str "error"),
                            ("code", .str "AUTH_ERROR"),
                            ("message", .str "invalid api key")])),
       .frame (.json (.obj [("type", .str "transcript.partial"),
                            ("text", .str "hi")]))] =
      [NewErrorEvent "[AUTH_ERROR] invalid api key", NewPartialEvent "hi"] ∧
    (sttLoopRun
      [.frame (.json (.obj [("type", .str "error"),
                            ("code", .str "AUTH_ERROR"),
                            ("message", .str "invalid api key")])),
       .frame (.json (.obj [("type", .str "transcript.partial"),
                            ("text", .str "hi")]))]).2 = false := by
  constructor <;> rfl

/-- C4 (amended): an inbound error frame makes the loop emit exactly one
error event carrying the composite code and message cause, after which the
loop keeps running on the remaining inputs; the closed event followed by the
end of the stream is produced only when the loop terminates, as it does on a
connection-level error, which yields the error event, then the closed event,
then the end of the stream. -/
theorem c4_error_frame_single_event (data : WireData) (em : ErrorMessage)
    (hpt : ParseMessageType data = .ok MessageTypeError)
    (hpm : ParseMessage data = .ok (.errorMessage em)) :
    (∀ rest, sttLoopRun (.frame data :: rest) =
      (NewErrorEvent ("[" ++ em.code ++ "] " ++ em.message) :: (sttLoopRun rest).1,
       (sttLoopRun rest).2)) ∧
    (∀ e rest, sttLoopRun (.connErr e :: rest) = ([NewErrorEvent e], true)) ∧
    (∀ e rest, sttLoopEvents (.connErr e :: rest) =
      [NewErrorEvent e, NewClosedEvent]) := by
  refine ⟨?_, fun e rest => rfl, fun e rest => rfl⟩
  intro rest
  simp [sttLoopRun, sttHandleMessage, sttHandleErrorMsg, hpt, hpm,
        MessageTypeError, MessageTypeTranscriptPartialMsg,
        MessageTypeTranscriptFinal, MessageTypeInputDone, MessageTypeProcessing]

/-- C4 witness: the amended theorem applied to a concrete AUTH_ERROR frame. -/
theorem c4_error_frame_single_event_witness :
    sttLoopRun
      [.frame (.json (.obj [("type", .str "error"),
                            ("code", .str "AUTH_ERROR"),
                            ("message", .str "invalid api key")]))] =
      (NewErrorEvent "[AUTH_ERROR] invalid api key" :: (sttLoopRun []).1,
       (sttLoopRun []).2) :=
  (c4_error_frame_single_event
    (.json (.obj [("type", .str "error"), ("code", .str "AUTH_ERROR"),
                  ("message", .str "invalid api key")]))
    { type := "error", code := "AUTH_ERROR", message := "invalid api key" }
    rfl rfl).1 []

/-- C10 counterexample: an audio.delta frame whose base64 payload is invalid
is skipped without any push, but the session state does change: the
first-chunk timestamp is stamped before the payload is decoded. -/
theorem c10_state_change_counterexample :
    ttsHandleMessage 5
      (.json (.obj [("type", .str "audio.delta"), ("audio", .str "!!!!")]))
      { freshTtsSession with ready := true, synthesizing := true,
                             currentStream := some 1 } =
      ({ freshTtsSession with ready := true, synthesizing := true,
                              currentStream := some 1,
                              firstChunkReceivedAt := some 5 }, []) ∧
    ({ freshTtsSession with ready := true, synthesizing := true,
                            currentStream := some 1,
                            firstChunkReceivedAt := some 5 } : TtsSession) ≠
      { freshTtsSession with ready := true, synthesizing := true,
                             currentStream := some 1 } := by
  constructor
  · rfl
  · decide

/-- C10 (amended): frames the loop cannot use are skipped with no event, no
push and no surfaced error, and the loop continues; the session state is
unchanged in every such case except one: an audio.delta frame stamps the
first-chunk timestamp before parsing and decoding, so an audio.delta whose
payload fails to decode still sets that timestamp (and changes nothing
else). -/
theorem c10_skip_malformed_frames :
    (∀ data e, ParseMessageType data = .error e → sttHandleMessage data = []) ∧
    (∀ data t, ParseMessageType data = .ok t →
      t ≠ MessageTypeTranscriptPartialMsg → t ≠ MessageTypeTranscriptFinal →
      t ≠ MessageTypeInputDone → t ≠ MessageTypeProcessing →
      t ≠ MessageTypeError → sttHandleMessage data = []) ∧
    (∀ data rest, (sttLoopRun (.frame data :: rest)).2 = (sttLoopRun rest).2) ∧
    (∀ now s data e, ParseMessageType data = .error e →
      ttsHandleMessage now data s = (s, [])) ∧
    (∀ now (s : TtsSession) data t, ParseMessageType data = .ok t →
      t ≠ MessageTypeAudioDelta → t ≠ MessageTypeAudioDone →
      t ≠ MessageTypeError → ttsHandleMessage now data s = (s, [])) ∧
    (∀ now s data d, ParseMessageType data = .ok MessageTypeAudioDelta →
      ParseMessage data = .ok (.audioDelta d) → base64Decode d.audio = none →
      ttsHandleMessage now data s = (stampFirstChunk now s, [])) := by
  refine ⟨?_, ?_, ?_, ?_, ?_, ?_⟩
  · intro data e h
    simp [sttHandleMessage, h]
  · intro data t h h1 h2 h3 h4 h5
    simp [sttHandleMessage, h, h1, h2, h3, h4, h5]
  · intro data rest
    simp [sttLoopRun]
  · intro now s data e h
    simp [ttsHandleMessage, h]
  · intro now s data t h h1 h2 h3
    simp [ttsHandleMessage, h, h1, h2, h3]
  · intro now s data d hpt hpm hdec
    simp [ttsHandleMessage, ttsHandleAudioDelta, hpt, hpm, hdec,
          MessageTypeAudioDelta, MessageTypeAudioDone, MessageTypeError]

/-- C10 witness: a frame with an unknown tag leaves a tts session untouched
with no pushes. -/
theorem c10_skip_malformed_frames_witness :
    ttsHandleMessage 7 (.json (.obj [("type", .str "session.config_done")]))
      freshTtsSession = (freshTtsSession, []) :=
  c10_skip_malformed_frames.2.2.2.2.1 7 freshTtsSession _ "session.config_done"
    rfl (by decide) (by decide) (by decide)

lemma connectWithRetryGo_ok (attempts : Nat → Option String)
    (cancelled : Nat → Bool) (maxReconnects k : Nat)
    (hcancel : ∀ j, cancelled j = false)
    (hfail : ∀ j, j < k → attempts j ≠ none) (hok : attempts k = none) :
    ∀ remaining i backoff le, 1 ≤ i → i ≤ k → k < i + remaining →
      connectWithRetryGo attempts cancelled maxReconnects remaining i backoff le =
        (.ok (), (List.range (k + 1 - i)).map (fun t => backoff * 2 ^ t)) := by
  intro remaining
  induction remaining with
  | zero => intro i backoff le h1 h2 h3; omega
  | succ r ih =>
    intro i backoff le h1 h2 h3
    have hi : i > 0 := h1
    unfold connectWithRetryGo
    simp only [hi, if_true, hcancel i, Bool.false_eq_true, if_false]
    by_cases hik : i = k
    · subst hik
      rw [hok]
      simp [List.range_succ_eq_map, Nat.sub_self]
    · have hlt : i < k := by omega
      rcases ha : attempts i with _ | e
      · exact absurd ha (hfail i hlt)
      · dsimp only
        rw [ih (i + 1) (backoff * 2) e (by omega) (by omega) (by omega)]
        have hr : k + 1 - i = (k - i) + 1 := by omega
        have hr2 : k + 1 - (i + 1) = k - i := by omega
        rw [hr, hr2, List.range_succ_eq_map, List.map_cons, List.map_map]
        simp only [pow_zero, mul_one]
        have hmap : List.map (fun t => backoff * 2 * 2 ^ t) (List.range (k - i)) =
            List.map ((fun t => backoff * 2 ^ t) ∘ Nat.succ) (List.range (k - i)) := by
          apply List.map_congr_left
          intro t ht
          simp only [Function.comp_apply, pow_succ]
          ring
        rw [hmap]

lemma connectWithRetryGo_exhausted (attempts : Nat → Option String)
    (cancelled : Nat → Bool) (maxReconnects : Nat) (err : Nat → String)
    (hcancel : ∀ j, cancelled j = false)
    (hfail : ∀ j, j ≤ maxReconnects → attempts j = some (err j)) :
    ∀ remaining i backoff, 1 ≤ i → i + remaining = maxReconnects + 1 →
      connectWithRetryGo attempts cancelled maxReconnects remaining i backoff
          (err (i - 1)) =
        (.error (.exhausted maxReconnects (err maxReconnects)),
         (List.range remaining).map (fun t => backoff * 2 ^ t)) := by
  intro remaining
  induction remaining with
  | zero =>
    intro i backoff h1 h2
    have : i - 1 = maxReconnects := by omega
    rw [this]
    rfl
  | succ r ih =>
    intro i backoff h1 h2
    have hi : i > 0 := h1
    unfold connectWithRetryGo
    simp only [hi, if_true, hcancel i, Bool.false_eq_true, if_false]
    rw [hfail i (by omega)]
    dsimp only
    have he : err i = err ((i + 1) - 1) := by simp
    rw [he, ih (i + 1) (backoff * 2) (by omega) (by omega)]
    rw [List.range_succ_eq_map, List.map_cons, List.map_map]
    simp only [pow_zero, mul_one]
    have hmap : List.map (fun t => backoff * 2 * 2 ^ t) (List.range r) =
        List.map ((fun t => backoff * 2 ^ t) ∘ Nat.succ) (List.range r) := by
      apply List.map_congr_left
      intro t ht
      simp only [Function.comp_apply, pow_succ]
      ring
    rw [hmap]

/-- C7: ConnectWithRetry calls Connect up to maxReconnects + 1 times (one
initial attempt plus at most maxReconnects retries), sleeping
backoffBase * 2 ^ (k - 1) before retry attempt k; with no cancellation, if
the first k attempts fail and attempt k succeeds the call returns success
after exactly the delays backoffBase * 2 ^ 0 .. backoffBase * 2 ^ (k - 1);
if every attempt fails it returns the aggregate error carrying the retry
count and the last underlying cause, after maxReconnects backoff sleeps; and
a context cancelled before a backoff wait aborts the call early with the
context error. -/
theorem c7_connect_with_retry :
    (∀ (attempts : Nat → Option String) (cancelled : Nat → Bool)
        (maxReconnects backoffBase k : Nat),
      (∀ j, cancelled j = false) → (∀ j, j < k → attempts j ≠ none) →
      attempts k = none → k ≤ maxReconnects →
      ConnectWithRetry attempts cancelled maxReconnects backoffBase =
        (.ok (), (List.range k).map (fun t => backoffBase * 2 ^ t))) ∧
    (∀ (attempts : Nat → Option String) (cancelled : Nat → Bool)
        (maxReconnects backoffBase : Nat) (err : Nat → String),
      (∀ j, cancelled j = false) →
      (∀ j, j ≤ maxReconnects → attempts j = some (err j)) →
      ConnectWithRetry attempts cancelled maxReconnects backoffBase =
        (.error (.exhausted maxReconnects (err maxReconnects)),
         (List.range maxReconnects).map (fun t => backoffBase * 2 ^ t))) ∧
    (∀ (attempts : Nat → Option String) (cancelled : Nat → Bool)
        (maxReconnects backoffBase : Nat) (e : String),
      attempts 0 = some e → cancelled 1 = true → 1 ≤ maxReconnects →
      (ConnectWithRetry attempts cancelled maxReconnects backoffBase).1 =
        .error .ctxCancelled) := by
  refine ⟨?_, ?_, ?_⟩
  · intro attempts cancelled maxReconnects backoffBase k hcancel hfail hok hk
    unfold ConnectWithRetry connectWithRetryGo
    simp only [gt_iff_lt, Nat.lt_irrefl, if_false]
    rcases ha : attempts 0 with _ | e
    · have hk0 : k = 0 := by
        by_contra hne
        exact hfail 0 (by omega) ha
      subst hk0
      simp
    · have hk0 : k ≠ 0 := by
        intro h
        rw [h] at hok
        rw [hok] at ha
        cases ha
      dsimp only
      rw [Nat.zero_add,
          connectWithRetryGo_ok attempts cancelled maxReconnects k hcancel hfail
            hok maxReconnects 1 backoffBase e (by omega) (by omega) (by omega)]
      simp
  · intro attempts cancelled maxReconnects backoffBase err hcancel hfail
    unfold ConnectWithRetry connectWithRetryGo
    simp only [gt_iff_lt, Nat.lt_irrefl, if_false]
    rw [hfail 0 (by omega)]
    dsimp only
    have h := connectWithRetryGo_exhausted attempts cancelled maxReconnects err
      hcancel hfail maxReconnects 1 backoffBase (by omega) (by omega)
    rw [Nat.zero_add]
    simpa using h
  · intro attempts cancelled maxReconnects backoffBase e ha hcancel hmax
    obtain ⟨m, rfl⟩ : ∃ m, maxReconnects = m + 1 := ⟨maxReconnects - 1, by omega⟩
    unfold ConnectWithRetry connectWithRetryGo
    simp only [gt_iff_lt, Nat.lt_irrefl, if_false]
    rw [ha]
    dsimp only
    rw [Nat.zero_add]
    unfold connectWithRetryGo
    simp [hcancel]

/-- C7 witness: MaxReconnects three and a one-second backoff base, with two
failures then success on the third attempt: the delays slept are one second
then two seconds, three seconds in total before success. -/
theorem c7_connect_with_retry_witness :
    ConnectWithRetry (fun i => if i < 2 then some "boom" else none)
        (fun _ => false) 3 1 =
      (.ok (), (List.range 2).map (fun t => 1 * 2 ^ t)) ∧
    ((List.range 2).map (fun t => 1 * 2 ^ t)).sum = 3 :=
  ⟨c7_connect_with_retry.1 (fun i => if i < 2 then some "boom" else none)
      (fun _ => false) 3 1 2 (fun j => rfl)
      (fun j hj => by simp [hj]) (by decide) (by decide),
   by decide⟩

/-- The timer field of the state inside a loop-step outcome, when the step
stays in the loop (continue or break); none for a send failure return. -/
def recStepTimer : RecStep → Option (Option Nat)
  | .continueLoop s => some s.timer
  | .breakLoop s => some s.timer
  | .failSend _ => none

/-- The reset counter of the state inside a loop-step outcome. -/
def recStepResets : RecStep → Option Nat
  | .continueLoop s => some s.resets
  | .breakLoop s => some s.resets
  | .failSend _ => none

/-- C5: in the simplified recognize loop the ten-second idle timer starts
only once the commit has been sent: before the commit no event touches the
timer; the send-completion step marks the commit and arms the timer with the
ten-second budget; once committed every event rearms it with the full budget
again; and when the armed timer expires the loop breaks with the state it
had, so the call returns successfully with exactly the final-transcript
segments accumulated so far (given no error event arrived). -/
theorem c5_idle_completion :
    (∀ (e : RecognitionEvent) (s : RecLoopState), s.committed = false →
      recStepTimer (recognizeStep (.ev e) s) = some s.timer ∧
      recStepResets (recognizeStep (.ev e) s) = some s.resets) ∧
    (∀ s : RecLoopState,
      recognizeStep (.sendDone (.ok ())) s =
        .continueLoop { s with committed := true,
                               timer := some recognizeIdleTimeout,
                               resets := s.resets + 1 }) ∧
    (∀ (e : RecognitionEvent) (s : RecLoopState), s.committed = true →
      recStepTimer (recognizeStep (.ev e) s) = some (some recognizeIdleTimeout) ∧
      recStepResets (recognizeStep (.ev e) s) = some (s.resets + 1)) ∧
    (∀ (s : RecLoopState) (rest : List RecInput) (d : Nat),
      s.timer = some d → s.error = none →
      runRecLoop (.idleFire :: rest) s = .finished s ∧
      recResult s = .ok (String.join s.texts, s.segments)) := by
  refine ⟨?_, fun s => rfl, ?_, ?_⟩
  · intro e s h
    unfold recognizeStep
    simp only [h, Bool.false_eq_true, if_false]
    by_cases h1 : e.type = EventFinal
    · simp [h1, recStepTimer, recStepResets, EventFinal, EventError, EventInputDone, EventClosed]
    · by_cases h2 : e.type = EventError
      · simp [h1, h2, recStepTimer, recStepResets, EventFinal, EventError, EventInputDone, EventClosed]
      · by_cases h3 : e.type = EventInputDone
        · simp [h1, h2, h3, recStepTimer, recStepResets, EventFinal, EventError, EventInputDone, EventClosed]
        · by_cases h4 : e.type = EventClosed <;>
            (simp only [EventFinal, EventError, EventInputDone, EventClosed]
               at h1 h2 h3 h4;
             simp [h1, h2, h3, h4, recStepTimer, recStepResets, EventFinal,
                   EventError, EventInputDone, EventClosed])
  · intro e s h
    unfold recognizeStep
    simp only [h, if_true]
    by_cases h1 : e.type = EventFinal
    · simp [h1, recStepTimer, recStepResets, EventFinal, EventError, EventInputDone, EventClosed]
    · by_cases h2 : e.type = EventError
      · simp [h1, h2, recStepTimer, recStepResets, EventFinal, EventError, EventInputDone, EventClosed]
      · by_cases h3 : e.type = EventInputDone
        · simp [h1, h2, h3, recStepTimer, recStepResets, EventFinal, EventError, EventInputDone, EventClosed]
        · by_cases h4 : e.type = EventClosed <;>
            (simp only [EventFinal, EventError, EventInputDone, EventClosed]
               at h1 h2 h3 h4;
             simp [h1, h2, h3, h4, recStepTimer, recStepResets, EventFinal,
                   EventError, EventInputDone, EventClosed])
  · intro s rest d htimer herr
    refine ⟨rfl, ?_⟩
    unfold recResult
    rw [herr]

/-- C5 witness: an armed, committed, error-free state with one accumulated
final segment finishes successfully on timer expiry with that segment. -/
theorem c5_idle_completion_witness :
    runRecLoop [.idleFire]
      { committed := true, timer := some recognizeIdleTimeout, resets := 2,
        texts := ["hello"],
        segments := [{ text := "hello", isFinal := true, startTime := 0,
                       endTime := 1000000 }], error := none } =
      .finished
        { committed := true, timer := some recognizeIdleTimeout, resets := 2,
          texts := ["hello"],
          segments := [{ text := "hello", isFinal := true, startTime := 0,
                         endTime := 1000000 }], error := none } ∧
    recResult
      { committed := true, timer := some recognizeIdleTimeout, resets := 2,
        texts := ["hello"],
        segments := [{ text := "hello", isFinal := true, startTime := 0,
                       endTime := 1000000 }], error := none } =
      .ok (String.join ["hello"],
           [{ text := "hello", isFinal := true, startTime := 0,
              endTime := 1000000 }]) :=
  c5_idle_completion.2.2.2
    { committed := true, timer := some recognizeIdleTimeout, resets := 2,
      texts := ["hello"],
      segments := [{ text := "hello", isFinal := true, startTime := 0,
                     endTime := 1000000 }], error := none }
    [] recognizeIdleTimeout rfl rfl

lemma audioStreamReadAll_drain (cap : Nat) (hcap : 1 ≤ cap) :
    ∀ (fuel : Nat) (buffer : List Nat) (cs : List AudioChunk) (total : Nat),
      (∀ ch ∈ cs, ch.isDone = false ∧ ch.error = none) →
      buffer.length + (cs.map (fun ch => ch.data.length)).sum + cs.length + 1 ≤
        fuel →
      audioStreamReadAll cap fuel
        { buffer := buffer, pending := cs ++ [doneChunk], chClosed := true,
          closed := false, totalSize := total, err := none } =
        (buffer ++ (cs.map (fun ch => ch.data)).flatten,
         { buffer := [], pending := [], chClosed := true, closed := true,
           totalSize := total + (cs.map (fun ch => ch.data.length)).sum,
           err := none },
         true) := by
  intro fuel
  induction fuel with
  | zero =>
    intro buffer cs total hcs hf
    omega
  | succ f ih =>
    intro buffer cs total hcs hf
    cases buffer with
    | cons x xs =>
      have hread : audioStreamRead cap
          { buffer := x :: xs, pending := cs ++ [doneChunk], chClosed := true,
            closed := false, totalSize := total, err := none } =
          (.bytes ((x :: xs).take cap),
           { buffer := (x :: xs).drop cap, pending := cs ++ [doneChunk],
             chClosed := true, closed := false, totalSize := total,
             err := none }) := by
        simp [audioStreamRead]
      have hih := ih ((x :: xs).drop cap) cs total hcs (by
        simp only [List.length_drop, List.length_cons] at hf ⊢
        omega)
      simp only [audioStreamReadAll, hread, hih]
      simp [← List.append_assoc, List.take_append_drop]
    | nil =>
      cases cs with
      | nil =>
        simp [audioStreamReadAll, audioStreamRead, doneChunk]
      | cons ch cs2 =>
        obtain ⟨hdone, herror⟩ := hcs ch (List.mem_cons_self ch cs2)
        have hcs2 : ∀ c2 ∈ cs2, c2.isDone = false ∧ c2.error = none :=
          fun c2 hm => hcs c2 (List.mem_cons_of_mem ch hm)
        have hread : audioStreamRead cap
            { buffer := [], pending := (ch :: cs2) ++ [doneChunk],
              chClosed := true, closed := false, totalSize := total,
              err := none } =
            (.bytes (ch.data.take cap),
             { buffer := ch.data.drop cap, pending := cs2 ++ [doneChunk],
               chClosed := true, closed := false,
               totalSize := total + ch.data.length, err := none }) := by
          simp [audioStreamRead, hdone, herror]
        have hih := ih (ch.data.drop cap) cs2 (total + ch.data.length) hcs2 (by
          simp only [List.length_drop, List.map_cons, List.sum_cons,
            List.length_cons, List.length_nil] at hf ⊢
          omega)
        simp only [audioStreamReadAll, hread, hih]
        simp [← List.append_assoc, List.take_append_drop, Nat.add_assoc]

/-- C6: a synthesis round whose stream received data chunks of 100, 200 and
50 bytes followed by the completion sentinel delivers exactly those 350
bytes across the Read calls, whatever the positive read-buffer size, then
reports end-of-stream, and after full consumption TotalSize is 350. -/
theorem c6_audio_stream_totals (a b c : List Nat) (cap fuel : Nat)
    (ha : a.length = 100) (hb : b.length = 200) (hc : c.length = 50)
    (hcap : 1 ≤ cap) (hfuel : 354 ≤ fuel) :
    (audioStreamReadAll cap fuel
        (audioStreamPushDone (audioStreamPushData c 3 (audioStreamPushData b 2
          (audioStreamPushData a 1 newAudioStream))))).1 = a ++ b ++ c ∧
    (audioStreamReadAll cap fuel
        (audioStreamPushDone (audioStreamPushData c 3 (audioStreamPushData b 2
          (audioStreamPushData a 1 newAudioStream))))).1.length = 350 ∧
    (audioStreamReadAll cap fuel
        (audioStreamPushDone (audioStreamPushData c 3 (audioStreamPushData b 2
          (audioStreamPushData a 1 newAudioStream))))).2.2 = true ∧
    audioStreamTotalSize
      (audioStreamReadAll cap fuel
        (audioStreamPushDone (audioStreamPushData c 3 (audioStreamPushData b 2
          (audioStreamPushData a 1 newAudioStream))))).2.1 = 350 ∧
    (audioStreamRead cap
      (audioStreamReadAll cap fuel
        (audioStreamPushDone (audioStreamPushData c 3 (audioStreamPushData b 2
          (audioStreamPushData a 1 newAudioStream))))).2.1).1 = .eof := by
  have hscenario :
      audioStreamPushDone (audioStreamPushData c 3 (audioStreamPushData b 2
        (audioStreamPushData a 1 newAudioStream))) =
      { buffer := [], pending := [dataChunk a 1, dataChunk b 2, dataChunk c 3]
          ++ [doneChunk], chClosed := true, closed := false, totalSize := 0,
        err := none } := by
    simp [audioStreamPushData, audioStreamPushDone, newAudioStream,
          audioChunkChanCap]
  have hdrain := audioStreamReadAll_drain cap hcap fuel []
    [dataChunk a 1, dataChunk b 2, dataChunk c 3] 0
    (by intro ch hm
        simp only [List.mem_cons, List.not_mem_nil, or_false] at hm
        rcases hm with rfl | rfl | rfl <;> exact ⟨rfl, rfl⟩)
    (by simp [dataChunk, ha, hb, hc]; omega)
  rw [hscenario, hdrain]
  refine ⟨by simp [dataChunk], by simp [dataChunk, ha, hb, hc],
          rfl, by simp [dataChunk, audioStreamTotalSize, ha, hb, hc],
          by simp [audioStreamRead]⟩

/-- C6 witness: concrete chunk contents of sizes 100, 200 and 50 with a
512-byte read buffer. -/
theorem c6_audio_stream_totals_witness :
    (audioStreamReadAll 512 354
        (audioStreamPushDone (audioStreamPushData (List.replicate 50 7) 3
          (audioStreamPushData (List.replicate 200 7) 2
            (audioStreamPushData (List.replicate 100 7) 1
              newAudioStream))))).1.length = 350 ∧
    audioStreamTotalSize
      (audioStreamReadAll 512 354
        (audioStreamPushDone (audioStreamPushData (List.replicate 50 7) 3
          (audioStreamPushData (List.replicate 200 7) 2
            (audioStreamPushData (List.replicate 100 7) 1
              newAudioStream))))).2.1 = 350 :=
  ⟨(c6_audio_stream_totals (List.replicate 100 7) (List.replicate 200 7)
      (List.replicate 50 7) 512 354 (by rw [List.length_replicate])
      (by rw [List.length_replicate]) (by rw [List.length_replicate]) (by omega)
      (by omega)).2.1,
   (c6_audio_stream_totals (List.replicate 100 7) (List.replicate 200 7)
      (List.replicate 50 7) 512 354 (by rw [List.length_replicate])
      (by rw [List.length_replicate]) (by rw [List.length_replicate]) (by omega)
      (by omega)).2.2.2.1⟩
